import Mathlib

/-!
Verification of the four-stage data-quality-checking pipeline in
`program_09.py` (Environmental-Informatics assignment 09).

The Series Table is a list of observation records; each of the four
observed variables is `Option ℚ` (`none` is the missing marker, the
embedding of NumPy `NaN`; every numpy/pandas comparison involving `NaN`
is false, which `Option` matching reproduces).  The Tally Table is the
fixed 4x4 grid `ReplacedValuesDF`; its cells are `ℤ` because stage 2
writes a difference of counts.
-/

/-- One Series-Table record: a date key plus the four observed variables
(`Precip`, `Max Temp`, `Min Temp`, `Wind Speed` in the source). -/
structure Record where
  date : Nat
  precip : Option ℚ
  maxTemp : Option ℚ
  minTemp : Option ℚ
  windSpeed : Option ℚ
deriving DecidableEq, Repr

/-- One row of `ReplacedValuesDF`: a count per variable. -/
structure TallyRow where
  precip : ℤ
  maxTemp : ℤ
  minTemp : ℤ
  windSpeed : ℤ
deriving DecidableEq, Repr

/-- The Tally Table `ReplacedValuesDF`: rows `1. No Data`,
`2. Gross Error`, `3. Swapped`, `4. Range Fail`. -/
structure Tally where
  noData : TallyRow
  grossError : TallyRow
  swapped : TallyRow
  rangeFail : TallyRow
deriving DecidableEq, Repr

/-- The all-zero tally produced by `ReadData`
(`pd.DataFrame(0, index=..., columns=...)`). -/
def tallyZero : Tally :=
  ⟨⟨0, 0, 0, 0⟩, ⟨0, 0, 0, 0⟩, ⟨0, 0, 0, 0⟩, ⟨0, 0, 0, 0⟩⟩

/-- `DataDF[col].isna().sum()`: number of missing values in one column. -/
def countMissing (field : Record → Option ℚ) (df : List Record) : Nat :=
  df.countP fun r => (field r).isNone

/-- `ReplacedValuesDF.sum()` for one column: the sum of all four tally
rows in that column. -/
def colSum (field : TallyRow → ℤ) (t : Tally) : ℤ :=
  field t.noData + field t.grossError + field t.swapped + field t.rangeFail

/-- `DataDF.replace(-999, np.NaN)` on a single cell: the sentinel value
`-999` becomes missing, everything else is untouched. -/
def replaceSentinel (v : Option ℚ) : Option ℚ :=
  match v with
  | some x => if x = -999 then none else some x
  | none => none

/-- `DataDF.replace(-999, np.NaN)` on one record (the replacement acts
on every column of the frame). -/
def sentinelRecord (r : Record) : Record :=
  { r with
    precip := replaceSentinel r.precip
    maxTemp := replaceSentinel r.maxTemp
    minTemp := replaceSentinel r.minTemp
    windSpeed := replaceSentinel r.windSpeed }

/-- Stage 1, `Check01_RemoveNoDataValues`: replace `-999` by the missing
marker, then write row `1. No Data` as the per-column missing counts of
the modified frame (`DataDF[col].isna().sum()`). -/
def Check01_RemoveNoDataValues (df : List Record) (t : Tally) :
    List Record × Tally :=
  let df2 := df.map sentinelRecord
  (df2,
    { t with
      noData :=
        ⟨(countMissing Record.precip df2 : ℤ),
         (countMissing Record.maxTemp df2 : ℤ),
         (countMissing Record.minTemp df2 : ℤ),
         (countMissing Record.windSpeed df2 : ℤ)⟩ })

/-- `Series.mask((s > hi) | (s < lo), np.NaN)` on a single cell: a
present value strictly outside `[lo, hi]` becomes missing; a missing
cell stays missing (`NaN > hi` and `NaN < lo` are both false). -/
def maskOutside (lo hi : ℚ) (v : Option ℚ) : Option ℚ :=
  match v with
  | some x => if x > hi ∨ x < lo then none else some x
  | none => none

/-- The four column masks of `Check02_GrossErrors` applied to one
record: `Precip` against `[0, 25]`, both temperatures against
`[-25, 35]`, `Wind Speed` against `[0, 10]`. -/
def grossRecord (r : Record) : Record :=
  { r with
    precip := maskOutside 0 25 r.precip
    maxTemp := maskOutside (-25) 35 r.maxTemp
    minTemp := maskOutside (-25) 35 r.minTemp
    windSpeed := maskOutside 0 10 r.windSpeed }

/-- Stage 2, `Check02_GrossErrors`: mask values strictly outside the
fixed physical bounds, then write row `2. Gross Error` as
`DataDF.isna().sum() - ReplacedValuesDF.sum()` (the tally sum is taken
before the row is overwritten, as pandas evaluates the right-hand side
first). -/
def Check02_GrossErrors (df : List Record) (t : Tally) :
    List Record × Tally :=
  let df2 := df.map grossRecord
  (df2,
    { t with
      grossError :=
        ⟨(countMissing Record.precip df2 : ℤ) - colSum TallyRow.precip t,
         (countMissing Record.maxTemp df2 : ℤ) - colSum TallyRow.maxTemp t,
         (countMissing Record.minTemp df2 : ℤ) - colSum TallyRow.minTemp t,
         (countMissing Record.windSpeed df2 : ℤ) -
           colSum TallyRow.windSpeed t⟩ })

/-- `DataDF['Min Temp'] > DataDF['Max Temp']` on one record: false as
soon as either operand is missing. -/
def invertedB (r : Record) : Bool :=
  match r.minTemp, r.maxTemp with
  | some mn, some mx => decide (mx < mn)
  | _, _ => false

/-- The `np.where` column swap of `Check03_TmaxTminSwapped` on one
record: where the condition holds, `Min Temp` receives the old
`Max Temp` and `Max Temp` the old `Min Temp`; elsewhere the record is
copied unchanged. -/
def swapRecord (r : Record) : Record :=
  if invertedB r then { r with maxTemp := r.minTemp, minTemp := r.maxTemp }
  else r

/-- Stage 3, `Check03_TmaxTminSwapped`: count the rows with
`Min Temp > Max Temp` (`instances`), swap the two temperatures on those
rows, and write row `3. Swapped` as `[0, instances, instances, 0]`. -/
def Check03_TmaxTminSwapped (df : List Record) (t : Tally) :
    List Record × Tally :=
  let instances : ℤ := ((df.filter fun r => invertedB r).length : ℤ)
  (df.map swapRecord, { t with swapped := ⟨0, instances, instances, 0⟩ })

/-- `(DataDF['Max Temp'] - DataDF['Min Temp']) > 25` on one record:
false as soon as either operand is missing (`NaN` arithmetic yields
`NaN`, and `NaN > 25` is false). -/
def spreadB (r : Record) : Bool :=
  match r.maxTemp, r.minTemp with
  | some mx, some mn => decide (mx - mn > 25)
  | _, _ => false

/-- The masking of `Check04_TmaxTminRange` on one record: where the
spread condition holds, both temperatures become missing. -/
def rangeRecord (r : Record) : Record :=
  if spreadB r then { r with maxTemp := none, minTemp := none } else r

/-- Stage 4, `Check04_TmaxTminRange`: count the rows with
`Max Temp - Min Temp > 25` (`instances2`), mask both temperatures on
those rows, and write row `4. Range Fail` as
`[0, instances2, instances2, 0]`. -/
def Check04_TmaxTminRange (df : List Record) (t : Tally) :
    List Record × Tally :=
  let instances2 : ℤ := ((df.filter fun r => spreadB r).length : ℤ)
  (df.map rangeRecord, { t with rangeFail := ⟨0, instances2, instances2, 0⟩ })

/-- The `__main__` pipeline: the four checks in fixed order, starting
from the all-zero tally built by `ReadData`. -/
def runQualityChecks (df : List Record) : List Record × Tally :=
  let p1 := Check01_RemoveNoDataValues df tallyZero
  let p2 := Check02_GrossErrors p1.1 p1.2
  let p3 := Check03_TmaxTminSwapped p2.1 p2.2
  Check04_TmaxTminRange p3.1 p3.2

/-- The pipeline state after Stage 1 when started, as in `__main__`,
from the all-zero tally. -/
def stage1 (df : List Record) : List Record × Tally :=
  Check01_RemoveNoDataValues df tallyZero

/-- The pipeline state after Stage 2 in the `__main__` order. -/
def stage2 (df : List Record) : List Record × Tally :=
  Check02_GrossErrors (stage1 df).1 (stage1 df).2

/-! ## Helper lemmas -/

/-- A present value survives `maskOutside` exactly when it lies in the
closed interval `[lo, hi]`. -/
theorem maskOutside_some (lo hi x : ℚ) :
    maskOutside lo hi (some x) =
      if lo ≤ x ∧ x ≤ hi then some x else none := by
  simp only [maskOutside]
  by_cases h : x > hi ∨ x < lo
  · rw [if_pos h, if_neg]
    rintro ⟨h1, h2⟩
    rcases h with h | h <;> linarith
  · rw [if_neg h, if_pos]
    push_neg at h
    exact ⟨h.2, h.1⟩

theorem maskOutside_none (lo hi : ℚ) : maskOutside lo hi none = none := rfl

theorem maskOutside_idem (lo hi : ℚ) (v : Option ℚ) :
    maskOutside lo hi (maskOutside lo hi v) = maskOutside lo hi v := by
  cases v with
  | none => rfl
  | some x =>
      rw [maskOutside_some]
      by_cases h : lo ≤ x ∧ x ≤ hi
      · rw [if_pos h, maskOutside_some, if_pos h]
      · rw [if_neg h, maskOutside_none]

theorem grossRecord_idem (r : Record) :
    grossRecord (grossRecord r) = grossRecord r := by
  simp [grossRecord, maskOutside_idem]

/-- Masking never resurrects a value: a transform that sends missing
cells to missing cells can only increase a column's missing count. -/
theorem countMissing_map_le (field : Record → Option ℚ)
    (f : Record → Record)
    (hf : ∀ r : Record, (field r).isNone = true →
      (field (f r)).isNone = true)
    (df : List Record) :
    countMissing field df ≤ countMissing field (df.map f) := by
  unfold countMissing
  rw [List.countP_map]
  exact List.countP_mono_left fun r _ h => hf r h

/-! ## Claim theorems -/

/-- Claim C1: after Stage 3 (`Check03_TmaxTminSwapped`) completes, every
record of the Series Table with both temperatures present satisfies
`maxTemp >= minTemp`. -/
theorem check03_order_invariant (df : List Record) (t : Tally)
    (r : Record) (hr : r ∈ (Check03_TmaxTminSwapped df t).1) (a b : ℚ)
    (ha : r.maxTemp = some a) (hb : r.minTemp = some b) : b ≤ a := by
  rcases List.mem_map.mp hr with ⟨r0, _, rfl⟩
  by_cases h : invertedB r0 = true
  · simp only [swapRecord, h, if_true] at ha hb
    unfold invertedB at h
    rw [ha, hb] at h
    simp only [decide_eq_true_eq] at h
    exact le_of_lt h
  · simp only [swapRecord, h, if_false, Bool.false_eq_true] at ha hb
    unfold invertedB at h
    rw [ha, hb] at h
    simp only [decide_eq_true_eq] at h
    exact le_of_not_lt h

/-- Witness for C1: on the single inverted record
`(maxTemp = 10, minTemp = 20)` Stage 3 produces the swapped record, and
the invariant gives `10 <= 20`. -/
theorem check03_order_invariant_witness :
    (⟨0, none, some 20, some 10, none⟩ : Record) ∈
        (Check03_TmaxTminSwapped
          [⟨0, none, some 10, some 20, none⟩] tallyZero).1 ∧
      (10 : ℚ) ≤ 20 :=
  ⟨by decide,
   check03_order_invariant [⟨0, none, some 10, some 20, none⟩] tallyZero
     ⟨0, none, some 20, some 10, none⟩ (by decide) 20 10 rfl rfl⟩

/-- Claim C2: after Stage 4 (`Check04_TmaxTminRange`) completes, every
record of the Series Table with both temperatures present satisfies
`maxTemp - minTemp <= 25`. -/
theorem check04_spread_invariant (df : List Record) (t : Tally)
    (r : Record) (hr : r ∈ (Check04_TmaxTminRange df t).1) (a b : ℚ)
    (ha : r.maxTemp = some a) (hb : r.minTemp = some b) : a - b ≤ 25 := by
  rcases List.mem_map.mp hr with ⟨r0, _, rfl⟩
  by_cases h : spreadB r0 = true
  · simp only [rangeRecord, h, if_true] at ha
    exact absurd ha (by simp)
  · simp only [rangeRecord, h, if_false, Bool.false_eq_true] at ha hb
    unfold spreadB at h
    rw [ha, hb] at h
    simp only [decide_eq_true_eq] at h
    exact le_of_not_lt h

/-- Witness for C2: the record `(maxTemp = 20, minTemp = 10)` passes
Stage 4 untouched, and the invariant gives `20 - 10 <= 25`. -/
theorem check04_spread_invariant_witness :
    (⟨0, none, some 20, some 10, none⟩ : Record) ∈
        (Check04_TmaxTminRange
          [⟨0, none, some 20, some 10, none⟩] tallyZero).1 ∧
      (20 : ℚ) - 10 ≤ 25 :=
  ⟨by norm_num [Check04_TmaxTminRange, rangeRecord, spreadB],
   check04_spread_invariant [⟨0, none, some 20, some 10, none⟩] tallyZero
     ⟨0, none, some 20, some 10, none⟩
     (by norm_num [Check04_TmaxTminRange, rangeRecord, spreadB]) 20 10
     rfl rfl⟩

/-- `DataDF.replace(-999, np.NaN)` on one cell, restated: only the exact
sentinel is touched. -/
theorem replaceSentinel_eq (v : Option ℚ) :
    replaceSentinel v = if v = some (-999) then none else v := by
  cases v with
  | none => rfl
  | some x => by_cases h : x = -999 <;> simp [replaceSentinel, h]

/-- Claim C3: Stage 2 masks a present value exactly when it is strictly
outside its variable's fixed bound (so boundary values are kept), each
variable being masked independently of the others, and missing cells
staying missing. -/
theorem check02_mask_characterisation (df : List Record) (t : Tally) :
    (Check02_GrossErrors df t).1 = df.map grossRecord ∧
      ∀ r : Record,
        (∀ x : ℚ, r.precip = some x →
            (grossRecord r).precip =
              if 0 ≤ x ∧ x ≤ 25 then some x else none) ∧
          (r.precip = none → (grossRecord r).precip = none) ∧
          (∀ x : ℚ, r.maxTemp = some x →
            (grossRecord r).maxTemp =
              if -25 ≤ x ∧ x ≤ 35 then some x else none) ∧
          (r.maxTemp = none → (grossRecord r).maxTemp = none) ∧
          (∀ x : ℚ, r.minTemp = some x →
            (grossRecord r).minTemp =
              if -25 ≤ x ∧ x ≤ 35 then some x else none) ∧
          (r.minTemp = none → (grossRecord r).minTemp = none) ∧
          (∀ x : ℚ, r.windSpeed = some x →
            (grossRecord r).windSpeed =
              if 0 ≤ x ∧ x ≤ 10 then some x else none) ∧
          (r.windSpeed = none → (grossRecord r).windSpeed = none) := by
  refine ⟨rfl, fun r => ?_⟩
  refine ⟨fun x hx => ?_, fun hx => ?_, fun x hx => ?_, fun hx => ?_,
    fun x hx => ?_, fun hx => ?_, fun x hx => ?_, fun hx => ?_⟩ <;>
    simp [grossRecord, hx, maskOutside_some, maskOutside_none]

/-- Witness for C3 at a one-record table holding the boundary values
`precip = 25` and an out-of-range `maxTemp = 40`: the boundary value is
kept and the out-of-range value is masked. -/
theorem check02_mask_characterisation_witness :
    (Check02_GrossErrors [⟨0, some 25, some 40, some 10, some 3⟩]
          tallyZero).1 =
        [⟨0, some 25, some 40, some 10, some 3⟩].map grossRecord ∧
      (grossRecord ⟨0, some 25, some 40, some 10, some 3⟩).precip =
        some 25 ∧
      (grossRecord ⟨0, some 25, some 40, some 10, some 3⟩).maxTemp =
        none := by
  refine ⟨(check02_mask_characterisation _ tallyZero).1, ?_, ?_⟩
  · have h :=
      ((check02_mask_characterisation
          [⟨0, some 25, some 40, some 10, some 3⟩] tallyZero).2
        ⟨0, some 25, some 40, some 10, some 3⟩).1 25 rfl
    rw [h]
    norm_num
  · have h :=
      ((check02_mask_characterisation
          [⟨0, some 25, some 40, some 10, some 3⟩] tallyZero).2
        ⟨0, some 25, some 40, some 10, some 3⟩).2.2.1 40 rfl
    rw [h]
    norm_num

/-- Claim C7: Stage 1 replaces exactly the sentinel `-999` (in any of
the four variables) by the missing marker, leaves every other cell
unchanged, and writes row `NoData` as the absolute per-variable missing
counts of the table after the replacement; when the sentinel is absent
the table is unchanged and the counts are the pre-existing missing
counts. -/
theorem check01_sentinel_removal (df : List Record) (t : Tally) :
    (Check01_RemoveNoDataValues df t).1 = df.map sentinelRecord ∧
      (∀ r : Record,
        (sentinelRecord r).date = r.date ∧
          (sentinelRecord r).precip =
            (if r.precip = some (-999) then none else r.precip) ∧
          (sentinelRecord r).maxTemp =
            (if r.maxTemp = some (-999) then none else r.maxTemp) ∧
          (sentinelRecord r).minTemp =
            (if r.minTemp = some (-999) then none else r.minTemp) ∧
          (sentinelRecord r).windSpeed =
            (if r.windSpeed = some (-999) then none else r.windSpeed)) ∧
      (Check01_RemoveNoDataValues df t).2.noData =
        ⟨(countMissing Record.precip
            (Check01_RemoveNoDataValues df t).1 : ℤ),
         (countMissing Record.maxTemp
            (Check01_RemoveNoDataValues df t).1 : ℤ),
         (countMissing Record.minTemp
            (Check01_RemoveNoDataValues df t).1 : ℤ),
         (countMissing Record.windSpeed
            (Check01_RemoveNoDataValues df t).1 : ℤ)⟩ ∧
      ((∀ r ∈ df, r.precip ≠ some (-999) ∧ r.maxTemp ≠ some (-999) ∧
          r.minTemp ≠ some (-999) ∧ r.windSpeed ≠ some (-999)) →
        (Check01_RemoveNoDataValues df t).1 = df ∧
          (Check01_RemoveNoDataValues df t).2.noData =
            ⟨(countMissing Record.precip df : ℤ),
             (countMissing Record.maxTemp df : ℤ),
             (countMissing Record.minTemp df : ℤ),
             (countMissing Record.windSpeed df : ℤ)⟩) := by
  have hrec : ∀ r : Record,
      (sentinelRecord r).date = r.date ∧
        (sentinelRecord r).precip =
          (if r.precip = some (-999) then none else r.precip) ∧
        (sentinelRecord r).maxTemp =
          (if r.maxTemp = some (-999) then none else r.maxTemp) ∧
        (sentinelRecord r).minTemp =
          (if r.minTemp = some (-999) then none else r.minTemp) ∧
        (sentinelRecord r).windSpeed =
          (if r.windSpeed = some (-999) then none else r.windSpeed) :=
    fun r =>
      ⟨rfl, replaceSentinel_eq r.precip, replaceSentinel_eq r.maxTemp,
       replaceSentinel_eq r.minTemp, replaceSentinel_eq r.windSpeed⟩
  have hid : ∀ r : Record,
      r.precip ≠ some (-999) → r.maxTemp ≠ some (-999) →
      r.minTemp ≠ some (-999) → r.windSpeed ≠ some (-999) →
      sentinelRecord r = r := by
    intro r h1 h2 h3 h4
    have hr := hrec r
    rcases r with ⟨d, p, mx, mn, w⟩
    simp only [sentinelRecord]
    rw [replaceSentinel_eq, replaceSentinel_eq, replaceSentinel_eq,
      replaceSentinel_eq]
    simp_all
  refine ⟨rfl, hrec, rfl, fun h => ?_⟩
  have hmap : df.map sentinelRecord = df := by
    rw [show df.map sentinelRecord = df.map id from
      List.map_congr_left fun r hr =>
        hid r (h r hr).1 (h r hr).2.1 (h r hr).2.2.1 (h r hr).2.2.2]
    exact List.map_id df
  constructor
  · show df.map sentinelRecord = df
    exact hmap
  · show TallyRow.mk
        (countMissing Record.precip (df.map sentinelRecord) : ℤ)
        (countMissing Record.maxTemp (df.map sentinelRecord) : ℤ)
        (countMissing Record.minTemp (df.map sentinelRecord) : ℤ)
        (countMissing Record.windSpeed (df.map sentinelRecord) : ℤ) = _
    rw [hmap]

/-- Witness for C7: on a one-record table whose `precip` is the
sentinel, Stage 1 yields the mapped table, and the per-cell rules mask
the sentinel and keep the ordinary value `5`. -/
theorem check01_sentinel_removal_witness :
    (Check01_RemoveNoDataValues [⟨0, some (-999), some 5, none, some 1⟩]
          tallyZero).1 =
        [⟨0, some (-999), some 5, none, some 1⟩].map sentinelRecord ∧
      (sentinelRecord ⟨0, some (-999), some 5, none, some 1⟩).precip =
        none ∧
      (sentinelRecord ⟨0, some (-999), some 5, none, some 1⟩).maxTemp =
        some 5 := by
  refine ⟨(check01_sentinel_removal _ tallyZero).1, ?_, ?_⟩
  · have h :=
      ((check01_sentinel_removal
          [⟨0, some (-999), some 5, none, some 1⟩] tallyZero).2.1
        ⟨0, some (-999), some 5, none, some 1⟩).2.1
    rw [h]
    norm_num
  · have h :=
      ((check01_sentinel_removal
          [⟨0, some (-999), some 5, none, some 1⟩] tallyZero).2.1
        ⟨0, some (-999), some 5, none, some 1⟩).2.2.1
    rw [h]
    norm_num

/-- Claim C8: once a value is missing it stays missing through Stages
2, 3 and 4 — each stage acts record-wise, a missing cell maps to a
missing cell, and every range, order and spread predicate is false on a
missing operand. -/
theorem stages_preserve_missing (df : List Record) (t : Tally) :
    ((Check02_GrossErrors df t).1 = df.map grossRecord ∧
      ∀ r : Record,
        (r.precip = none → (grossRecord r).precip = none) ∧
          (r.maxTemp = none → (grossRecord r).maxTemp = none) ∧
          (r.minTemp = none → (grossRecord r).minTemp = none) ∧
          (r.windSpeed = none → (grossRecord r).windSpeed = none)) ∧
      ((Check03_TmaxTminSwapped df t).1 = df.map swapRecord ∧
        ∀ r : Record,
          (r.precip = none → (swapRecord r).precip = none) ∧
            (r.maxTemp = none → (swapRecord r).maxTemp = none) ∧
            (r.minTemp = none → (swapRecord r).minTemp = none) ∧
            (r.windSpeed = none → (swapRecord r).windSpeed = none)) ∧
      ((Check04_TmaxTminRange df t).1 = df.map rangeRecord ∧
        ∀ r : Record,
          (r.precip = none → (rangeRecord r).precip = none) ∧
            (r.maxTemp = none → (rangeRecord r).maxTemp = none) ∧
            (r.minTemp = none → (rangeRecord r).minTemp = none) ∧
            (r.windSpeed = none → (rangeRecord r).windSpeed = none)) ∧
      (∀ r : Record, r.maxTemp = none ∨ r.minTemp = none →
        invertedB r = false ∧ spreadB r = false) ∧
      ∀ lo hi : ℚ, maskOutside lo hi none = none := by
  refine ⟨⟨rfl, fun r => ?_⟩, ⟨rfl, fun r => ?_⟩, ⟨rfl, fun r => ?_⟩,
    fun r h => ?_, fun lo hi => rfl⟩
  · exact ⟨fun hx => by simp [grossRecord, hx, maskOutside_none],
      fun hx => by simp [grossRecord, hx, maskOutside_none],
      fun hx => by simp [grossRecord, hx, maskOutside_none],
      fun hx => by simp [grossRecord, hx, maskOutside_none]⟩
  · refine ⟨fun hx => ?_, fun hx => ?_, fun hx => ?_, fun hx => ?_⟩ <;>
      · unfold swapRecord
        split <;> simp_all [invertedB]
  · refine ⟨fun hx => ?_, fun hx => ?_, fun hx => ?_, fun hx => ?_⟩ <;>
      · unfold rangeRecord
        split <;> simp_all
  · rcases h with h | h <;> constructor <;> simp [invertedB, spreadB, h]

/-- Witness for C8: a record missing both temperatures passes all three
predicates falsely and keeps its missing cells. -/
theorem stages_preserve_missing_witness :
    invertedB ⟨0, some 2, none, none, some 1⟩ = false ∧
      spreadB ⟨0, some 2, none, none, some 1⟩ = false ∧
      (grossRecord ⟨0, some 2, none, none, some 1⟩).maxTemp = none ∧
      (swapRecord ⟨0, some 2, none, none, some 1⟩).maxTemp = none ∧
      (rangeRecord ⟨0, some 2, none, none, some 1⟩).maxTemp = none := by
  have h := stages_preserve_missing [⟨0, some 2, none, none, some 1⟩]
    tallyZero
  have hpred := h.2.2.2.1 ⟨0, some 2, none, none, some 1⟩ (Or.inl rfl)
  exact ⟨hpred.1, hpred.2,
    (h.1.2 ⟨0, some 2, none, none, some 1⟩).2.1 rfl,
    (h.2.1.2 ⟨0, some 2, none, none, some 1⟩).2.1 rfl,
    (h.2.2.1.2 ⟨0, some 2, none, none, some 1⟩).2.1 rfl⟩

/-- Stage 3 never touches `Precip`. -/
theorem swapRecord_precip (r : Record) :
    (swapRecord r).precip = r.precip := by
  unfold swapRecord
  split <;> rfl

/-- Stage 3 never touches `Wind Speed`. -/
theorem swapRecord_windSpeed (r : Record) :
    (swapRecord r).windSpeed = r.windSpeed := by
  unfold swapRecord
  split <;> rfl

/-- Stage 3 never touches the date key. -/
theorem swapRecord_date (r : Record) : (swapRecord r).date = r.date := by
  unfold swapRecord
  split <;> rfl

/-- Stage 4 never touches `Precip`. -/
theorem rangeRecord_precip (r : Record) :
    (rangeRecord r).precip = r.precip := by
  unfold rangeRecord
  split <;> rfl

/-- Stage 4 never touches `Wind Speed`. -/
theorem rangeRecord_windSpeed (r : Record) :
    (rangeRecord r).windSpeed = r.windSpeed := by
  unfold rangeRecord
  split <;> rfl

/-- Stage 4 never touches the date key. -/
theorem rangeRecord_date (r : Record) : (rangeRecord r).date = r.date := by
  unfold rangeRecord
  split <;> rfl

/-- Claim C10: Stages 3 and 4 leave the `Precip` and `Wind Speed`
columns of every record unchanged, and no stage adds or removes
records — the date column and the record count are identical before and
after each of the four stages. -/
theorem stage_frame_conditions (df : List Record) (t : Tally) :
    (Check03_TmaxTminSwapped df t).1.map Record.precip =
        df.map Record.precip ∧
      (Check03_TmaxTminSwapped df t).1.map Record.windSpeed =
        df.map Record.windSpeed ∧
      (Check04_TmaxTminRange df t).1.map Record.precip =
        df.map Record.precip ∧
      (Check04_TmaxTminRange df t).1.map Record.windSpeed =
        df.map Record.windSpeed ∧
      (Check01_RemoveNoDataValues df t).1.map Record.date =
        df.map Record.date ∧
      (Check02_GrossErrors df t).1.map Record.date = df.map Record.date ∧
      (Check03_TmaxTminSwapped df t).1.map Record.date =
        df.map Record.date ∧
      (Check04_TmaxTminRange df t).1.map Record.date =
        df.map Record.date ∧
      (Check01_RemoveNoDataValues df t).1.length = df.length ∧
      (Check02_GrossErrors df t).1.length = df.length ∧
      (Check03_TmaxTminSwapped df t).1.length = df.length ∧
      (Check04_TmaxTminRange df t).1.length = df.length := by
  refine ⟨?_, ?_, ?_, ?_, ?_, ?_, ?_, ?_, ?_, ?_, ?_, ?_⟩ <;>
    simp [Check01_RemoveNoDataValues, Check02_GrossErrors,
      Check03_TmaxTminSwapped, Check04_TmaxTminRange, List.map_map,
      Function.comp_def, swapRecord_precip, swapRecord_windSpeed,
      swapRecord_date, rangeRecord_precip, rangeRecord_windSpeed,
      rangeRecord_date, sentinelRecord, grossRecord]

/-- A missing `Precip` cell stays missing under the Stage-2 mask. -/
theorem grossRecord_precip_none (r : Record)
    (h : (Record.precip r).isNone = true) :
    (Record.precip (grossRecord r)).isNone = true := by
  rw [Option.isNone_iff_eq_none] at h ⊢
  simp [grossRecord, h, maskOutside_none]

/-- A missing `Max Temp` cell stays missing under the Stage-2 mask. -/
theorem grossRecord_maxTemp_none (r : Record)
    (h : (Record.maxTemp r).isNone = true) :
    (Record.maxTemp (grossRecord r)).isNone = true := by
  rw [Option.isNone_iff_eq_none] at h ⊢
  simp [grossRecord, h, maskOutside_none]

/-- A missing `Min Temp` cell stays missing under the Stage-2 mask. -/
theorem grossRecord_minTemp_none (r : Record)
    (h : (Record.minTemp r).isNone = true) :
    (Record.minTemp (grossRecord r)).isNone = true := by
  rw [Option.isNone_iff_eq_none] at h ⊢
  simp [grossRecord, h, maskOutside_none]

/-- A missing `Wind Speed` cell stays missing under the Stage-2 mask. -/
theorem grossRecord_windSpeed_none (r : Record)
    (h : (Record.windSpeed r).isNone = true) :
    (Record.windSpeed (grossRecord r)).isNone = true := by
  rw [Option.isNone_iff_eq_none] at h ⊢
  simp [grossRecord, h, maskOutside_none]

/-- Claim C4: in the fixed pipeline order starting from the all-zero
tally, the `GrossError` row written by Stage 2 equals, per variable, the
total missing count after Stage 2 minus the `NoData` count written by
Stage 1, and this difference is non-negative. -/
theorem check02_count_conservation (df : List Record) :
    ((stage2 df).2.grossError.precip =
        (countMissing Record.precip (stage2 df).1 : ℤ) -
          (stage1 df).2.noData.precip ∧
      0 ≤ (stage2 df).2.grossError.precip) ∧
      ((stage2 df).2.grossError.maxTemp =
          (countMissing Record.maxTemp (stage2 df).1 : ℤ) -
            (stage1 df).2.noData.maxTemp ∧
        0 ≤ (stage2 df).2.grossError.maxTemp) ∧
      ((stage2 df).2.grossError.minTemp =
          (countMissing Record.minTemp (stage2 df).1 : ℤ) -
            (stage1 df).2.noData.minTemp ∧
        0 ≤ (stage2 df).2.grossError.minTemp) ∧
      ((stage2 df).2.grossError.windSpeed =
          (countMissing Record.windSpeed (stage2 df).1 : ℤ) -
            (stage1 df).2.noData.windSpeed ∧
        0 ≤ (stage2 df).2.grossError.windSpeed) := by
  have hp := countMissing_map_le Record.precip grossRecord
    grossRecord_precip_none (df.map sentinelRecord)
  have hmx := countMissing_map_le Record.maxTemp grossRecord
    grossRecord_maxTemp_none (df.map sentinelRecord)
  have hmn := countMissing_map_le Record.minTemp grossRecord
    grossRecord_minTemp_none (df.map sentinelRecord)
  have hw := countMissing_map_le Record.windSpeed grossRecord
    grossRecord_windSpeed_none (df.map sentinelRecord)
  simp only [stage2, stage1, Check01_RemoveNoDataValues,
    Check02_GrossErrors, colSum, tallyZero]
  refine ⟨⟨by ring, ?_⟩, ⟨by ring, ?_⟩, ⟨by ring, ?_⟩, ⟨by ring, ?_⟩⟩ <;>
    omega

/-- Claim C5: Stage 3 swaps the two temperatures exactly on the records
where both are present and `minTemp > maxTemp`, leaves every other
record untouched, and writes row `Swapped` as
`[0, instances, instances, 0]` where `instances` counts the records
satisfying the condition before the swap (the condition being false on
any missing operand). -/
theorem check03_swap_characterisation (df : List Record) (t : Tally) :
    (Check03_TmaxTminSwapped df t).1 = df.map swapRecord ∧
      (∀ r : Record, ∀ a b : ℚ, r.maxTemp = some a → r.minTemp = some b →
        a < b →
        swapRecord r = { r with maxTemp := some b, minTemp := some a }) ∧
      (∀ r : Record, ∀ a b : ℚ, r.maxTemp = some a → r.minTemp = some b →
        b ≤ a → swapRecord r = r) ∧
      (∀ r : Record, r.maxTemp = none → swapRecord r = r) ∧
      (∀ r : Record, r.minTemp = none → swapRecord r = r) ∧
      (Check03_TmaxTminSwapped df t).2.swapped.precip = 0 ∧
      (Check03_TmaxTminSwapped df t).2.swapped.windSpeed = 0 ∧
      (Check03_TmaxTminSwapped df t).2.swapped.maxTemp =
        ((df.filter fun r => invertedB r).length : ℤ) ∧
      (Check03_TmaxTminSwapped df t).2.swapped.minTemp =
        ((df.filter fun r => invertedB r).length : ℤ) ∧
      ∀ r : Record, invertedB r = true ↔
        ∃ a b : ℚ, r.maxTemp = some a ∧ r.minTemp = some b ∧ a < b := by
  refine ⟨rfl, fun r a b ha hb hab => ?_, fun r a b ha hb hab => ?_,
    fun r h => ?_, fun r h => ?_, rfl, rfl, rfl, rfl, fun r => ?_⟩
  · have hc : invertedB r = true := by
      simp [invertedB, ha, hb, hab]
    simp only [swapRecord, hc, if_true]
    rw [ha, hb]
  · have hc : invertedB r = false := by
      simp [invertedB, ha, hb, not_lt.mpr hab]
    simp [swapRecord, hc]
  · have hc : invertedB r = false := by
      cases hmn : r.minTemp <;> simp [invertedB, h, hmn]
    simp [swapRecord, hc]
  · have hc : invertedB r = false := by
      simp [invertedB, h]
    simp [swapRecord, hc]
  · constructor
    · intro h
      unfold invertedB at h
      cases hmn : r.minTemp with
      | none => rw [hmn] at h; simp at h
      | some b =>
          cases hmx : r.maxTemp with
          | none => rw [hmn, hmx] at h; simp at h
          | some a =>
              rw [hmn, hmx] at h
              simp only [decide_eq_true_eq] at h
              exact ⟨a, b, rfl, rfl, h⟩
    · rintro ⟨a, b, ha, hb, hab⟩
      simp [invertedB, ha, hb, hab]

/-- Witness for C5: a one-record table with `maxTemp = 10`,
`minTemp = 20` is swapped and counted once. -/
theorem check03_swap_characterisation_witness :
    swapRecord ⟨3, some 1, some 10, some 20, some 2⟩ =
        ⟨3, some 1, some 20, some 10, some 2⟩ ∧
      (Check03_TmaxTminSwapped [⟨3, some 1, some 10, some 20, some 2⟩]
          tallyZero).2.swapped.maxTemp =
        (([⟨3, some 1, some 10, some 20, some 2⟩].filter
            fun r => invertedB r).length : ℤ) := by
  constructor
  · have h := (check03_swap_characterisation
      [⟨3, some 1, some 10, some 20, some 2⟩] tallyZero).2.1
      ⟨3, some 1, some 10, some 20, some 2⟩ 10 20 rfl rfl (by norm_num)
    exact h
  · exact (check03_swap_characterisation
      [⟨3, some 1, some 10, some 20, some 2⟩] tallyZero).2.2.2.2.2.2.2.1

/-- Claim C6: Stage 4 masks both temperatures exactly on the records
where both are present and `maxTemp - minTemp > 25`, leaves every other
record untouched, and writes row `RangeFail` as
`[0, instances2, instances2, 0]` where `instances2` counts the records
satisfying the condition before the masking (the condition being false
on any missing operand). -/
theorem check04_range_characterisation (df : List Record) (t : Tally) :
    (Check04_TmaxTminRange df t).1 = df.map rangeRecord ∧
      (∀ r : Record, ∀ a b : ℚ, r.maxTemp = some a → r.minTemp = some b →
        a - b > 25 →
        rangeRecord r = { r with maxTemp := none, minTemp := none }) ∧
      (∀ r : Record, ∀ a b : ℚ, r.maxTemp = some a → r.minTemp = some b →
        a - b ≤ 25 → rangeRecord r = r) ∧
      (∀ r : Record, r.maxTemp = none → rangeRecord r = r) ∧
      (∀ r : Record, r.minTemp = none → rangeRecord r = r) ∧
      (Check04_TmaxTminRange df t).2.rangeFail.precip = 0 ∧
      (Check04_TmaxTminRange df t).2.rangeFail.windSpeed = 0 ∧
      (Check04_TmaxTminRange df t).2.rangeFail.maxTemp =
        ((df.filter fun r => spreadB r).length : ℤ) ∧
      (Check04_TmaxTminRange df t).2.rangeFail.minTemp =
        ((df.filter fun r => spreadB r).length : ℤ) ∧
      ∀ r : Record, spreadB r = true ↔
        ∃ a b : ℚ, r.maxTemp = some a ∧ r.minTemp = some b ∧
          a - b > 25 := by
  refine ⟨rfl, fun r a b ha hb hab => ?_, fun r a b ha hb hab => ?_,
    fun r h => ?_, fun r h => ?_, rfl, rfl, rfl, rfl, fun r => ?_⟩
  · have hc : spreadB r = true := by
      simp [spreadB, ha, hb, hab]
    simp only [rangeRecord, hc, if_true]
  · have hc : spreadB r = false := by
      simp [spreadB, ha, hb, not_lt.mpr hab]
    simp [rangeRecord, hc]
  · have hc : spreadB r = false := by
      simp [spreadB, h]
    simp [rangeRecord, hc]
  · have hc : spreadB r = false := by
      cases hmx : r.maxTemp <;> simp [spreadB, h, hmx]
    simp [rangeRecord, hc]
  · constructor
    · intro h
      unfold spreadB at h
      cases hmx : r.maxTemp with
      | none => rw [hmx] at h; simp at h
      | some a =>
          cases hmn : r.minTemp with
          | none => rw [hmx, hmn] at h; simp at h
          | some b =>
              rw [hmx, hmn] at h
              simp only [decide_eq_true_eq] at h
              exact ⟨a, b, rfl, rfl, h⟩
    · rintro ⟨a, b, ha, hb, hab⟩
      simp [spreadB, ha, hb, hab]

/-- Witness for C6: a one-record table with `maxTemp = 30`,
`minTemp = -5` (spread 35) has both temperatures masked and is counted
once. -/
theorem check04_range_characterisation_witness :
    rangeRecord ⟨4, some 1, some 30, some (-5), some 2⟩ =
        ⟨4, some 1, none, none, some 2⟩ ∧
      (Check04_TmaxTminRange [⟨4, some 1, some 30, some (-5), some 2⟩]
          tallyZero).2.rangeFail.maxTemp =
        (([⟨4, some 1, some 30, some (-5), some 2⟩].filter
            fun r => spreadB r).length : ℤ) := by
  constructor
  · exact (check04_range_characterisation
      [⟨4, some 1, some 30, some (-5), some 2⟩] tallyZero).2.1
      ⟨4, some 1, some 30, some (-5), some 2⟩ 30 (-5) rfl rfl
      (by norm_num)
  · exact (check04_range_characterisation
      [⟨4, some 1, some 30, some (-5), some 2⟩] tallyZero).2.2.2.2.2.2.2.1

/-- A value produced by `maskOutside` is always inside the closed
bound. -/
theorem maskOutside_bounds (lo hi : ℚ) (v : Option ℚ) (x : ℚ)
    (h : maskOutside lo hi v = some x) : lo ≤ x ∧ x ≤ hi := by
  cases v with
  | none => simp [maskOutside_none] at h
  | some y =>
      rw [maskOutside_some] at h
      by_cases hb : lo ≤ y ∧ y ≤ hi
      · rw [if_pos hb] at h
        cases h
        exact hb
      · rw [if_neg hb] at h
        simp at h

/-- Counterexample to C9 as stated: on the single record
`(precip = 30, maxTemp = 10, minTemp = 5, windSpeed = 2)` run through
Stages 1 and 2, applying `Check02_GrossErrors` a second time to its own
output does change the result — the `GrossError` tally row is
recomputed against a tally that now already contains it, so the row
drops from `[1,0,0,0]` to `[0,0,0,0]`. -/
theorem check02_not_idempotent_cx :
    Check02_GrossErrors (stage2 [⟨0, some 30, some 10, some 5, some 2⟩]).1
        (stage2 [⟨0, some 30, some 10, some 5, some 2⟩]).2 ≠
      stage2 [⟨0, some 30, some 10, some 5, some 2⟩] := by
  decide

/-- Claim C9 (amended): after Stage 2 every present value lies within
its variable's closed bound, and re-applying `Check02_GrossErrors`
leaves the Series Table unchanged (whatever tally it is rerun with);
only the `GrossError` tally row may differ on the second run. -/
theorem check02_series_idempotent (df : List Record) (t u : Tally) :
    (Check02_GrossErrors (Check02_GrossErrors df t).1 u).1 =
        (Check02_GrossErrors df t).1 ∧
      ∀ r : Record, r ∈ (Check02_GrossErrors df t).1 →
        (∀ x : ℚ, r.precip = some x → 0 ≤ x ∧ x ≤ 25) ∧
          (∀ x : ℚ, r.maxTemp = some x → -25 ≤ x ∧ x ≤ 35) ∧
          (∀ x : ℚ, r.minTemp = some x → -25 ≤ x ∧ x ≤ 35) ∧
          (∀ x : ℚ, r.windSpeed = some x → 0 ≤ x ∧ x ≤ 10) := by
  constructor
  · show (df.map grossRecord).map grossRecord = df.map grossRecord
    rw [List.map_map]
    exact List.map_congr_left fun r _ => grossRecord_idem r
  · intro r hr
    rcases List.mem_map.mp hr with ⟨r0, _, rfl⟩
    exact ⟨fun x hx => maskOutside_bounds 0 25 r0.precip x hx,
      fun x hx => maskOutside_bounds (-25) 35 r0.maxTemp x hx,
      fun x hx => maskOutside_bounds (-25) 35 r0.minTemp x hx,
      fun x hx => maskOutside_bounds 0 10 r0.windSpeed x hx⟩

/-- Witness for the amended C9 at a concrete one-record table. -/
theorem check02_series_idempotent_witness :
    (Check02_GrossErrors
          (Check02_GrossErrors [⟨0, some 30, some 10, some 5, some 2⟩]
              tallyZero).1 tallyZero).1 =
      (Check02_GrossErrors [⟨0, some 30, some 10, some 5, some 2⟩]
          tallyZero).1 :=
  (check02_series_idempotent [⟨0, some 30, some 10, some 5, some 2⟩]
    tallyZero tallyZero).1
